import Mathlib

/-!
Verification of the PX4 NPFG lateral-directional guidance law (npfg.cpp).

The single-precision float arithmetic of the source is modelled over the real
numbers.  Every definition below is a shallow embedding of the corresponding
function of `src/unnamed/part_000` (npfg.cpp); the file-local constants and the
tiny inline helpers of the missing header npfg.hpp (and of the external geo /
math libraries) are modelled from the spec and carry a doc comment saying so.
-/

namespace NPFGVerification

open scoped Classical

noncomputable section

/-- Modelled from the spec: 2D single-precision vector of the external PX4
matrix library (an opaque geometry capability per the spec), over the reals. -/
structure Vec2 where
  x : ℝ
  y : ℝ

/-- Modelled from the spec: dot product of the external matrix library. -/
def Vec2.dot (a b : Vec2) : ℝ := a.x * b.x + a.y * b.y

/-- Modelled from the spec: Euclidean norm of the external matrix library. -/
def Vec2.norm (a : Vec2) : ℝ := Real.sqrt (a.x * a.x + a.y * a.y)

/-- Modelled from the spec: componentwise vector difference. -/
instance : Sub Vec2 := ⟨fun a b => ⟨a.x - b.x, a.y - b.y⟩⟩

/-- Modelled from the spec: componentwise vector addition. -/
instance : Add Vec2 := ⟨fun a b => ⟨a.x + b.x, a.y + b.y⟩⟩

/-- Modelled from the spec: scalar times vector of the external matrix library. -/
instance : HMul ℝ Vec2 Vec2 := ⟨fun c a => ⟨c * a.x, c * a.y⟩⟩

/-- Modelled from the spec: `normalized()` divides a vector by its norm. -/
def Vec2.normalized (a : Vec2) : Vec2 := ⟨a.x / a.norm, a.y / a.norm⟩

/-- Modelled from the spec: the 2D cross product helper `cross2D` of the
missing header npfg.hpp, with the standard convention
`v1.x * v2.y - v1.y * v2.x` (the spec's fixed cross-product sign convention). -/
def cross2D (v1 v2 : Vec2) : ℝ := v1.x * v2.y - v1.y * v2.x

/-- Modelled from the spec: `math::constrain(val, lo, hi)` of the external math
library, clamping `val` into the interval. -/
def constrain (val min_val max_val : ℝ) : ℝ :=
  if val < min_val then min_val else if val > max_val then max_val else val

/-- Modelled from the spec: `math::radians` of the external math library,
degree-to-radian conversion. -/
def radians (deg : ℝ) : ℝ := deg * (Real.pi / 180)

/-- Modelled from the spec: the Earth radius constant of the external geo
library (meters). -/
def CONSTANTS_RADIUS_OF_EARTH : ℝ := 6371000

/-- Modelled from the spec: standard gravity of the external geo library. -/
def CONSTANTS_ONE_G : ℝ := 9.80665

/-- Modelled from the spec: fixed minimum airspeed threshold of the missing
header npfg.hpp, below which evaluation short-circuits (degenerate case). -/
def MIN_AIRSPEED : ℝ := 0.1

/-- Modelled from the spec: minimum effective loiter radius of the missing
header npfg.hpp, flooring the radius input to avoid singular curvature. -/
def MIN_RADIUS : ℝ := 0.5

/-- Modelled from the spec: fixed safety factor of the missing header
npfg.hpp, multiplying the stability lower bound of the period. -/
def PERIOD_SAFETY_FACTOR : ℝ := 1.5

/-- Modelled from the spec: small positive constant of the missing header
npfg.hpp used to guard singular denominators. -/
def EPSILON : ℝ := 1e-6

/-- Modelled from the spec: small-angle cutoff (on the sine of the cross-wind
angle) of the missing header npfg.hpp, below which the feasibility barriers
switch to a linear approximation avoiding the `1 / sin` singularity. -/
def CROSS_WIND_ANG_CO : ℝ := 0.2

/-- Modelled from the spec: reciprocal of the small-angle cutoff, the value of
`1 / sin` at the crossover point of the missing header npfg.hpp. -/
def ONE_DIV_SIN_CROSS_WIND_ANG_CO : ℝ := 5

/-- Modelled from the spec: slope of the linear feasibility-barrier
approximation of the missing header npfg.hpp, matching the tangent of
`1 / sin` at the cutoff. -/
def CO_SLOPE : ℝ := 25

/-- Controller state and tunable configuration of the NPFG class (npfg.hpp
members, as enumerated by the spec's data model). -/
structure NPFG where
  period_ : ℝ
  damping_ : ℝ
  roll_time_const_ : ℝ
  airspeed_nom_ : ℝ
  airspeed_max_ : ℝ
  wind_ratio_buffer_ : ℝ
  min_gsp_cmd_ : ℝ
  min_gsp_track_keeping_max_ : ℝ
  inv_nte_fraction_ : ℝ
  roll_lim_rad_ : ℝ
  roll_slew_rate_ : ℝ
  dt_ : ℝ
  en_period_lb_ : Bool
  en_period_ub_ : Bool
  ramp_in_adapted_period_ : Bool
  en_track_keeping_ : Bool
  en_min_ground_speed_ : Bool
  en_wind_excess_regulation_ : Bool
  adapted_period_ : ℝ
  p_gain_ : ℝ
  time_const_ : ℝ
  track_error_bound_ : ℝ
  feas_ : ℝ
  feas_on_track_ : ℝ
  min_gsp_track_keeping_ : ℝ
  min_ground_speed_ref_ : ℝ
  airspeed_ref_ : ℝ
  track_proximity_ : ℝ
  lateral_accel_ff_ : ℝ
  lateral_accel_ : ℝ
  roll_setpoint_ : ℝ
  signed_track_error_ : ℝ
  bearing_vec_ : Vec2
  air_vel_ref_ : Vec2
  unit_path_tangent_ : Vec2
  path_type_loiter_ : Bool

/-- NPFG::windFactor (npfg.cpp line 177). -/
def windFactor ( wind_ratio : ℝ) : ℝ :=
  2 * (1 - Real.sqrt (1 - min 1 wind_ratio))

/-- NPFG::normalizedTrackError (npfg.cpp line 172). -/
def normalizedTrackError (track_error track_error_bound : ℝ) : ℝ :=
  constrain (track_error / track_error_bound) 0 1

/-- NPFG::lookAheadAngle (npfg.cpp line 242). -/
def lookAheadAngle (normalized_track_error : ℝ) : ℝ :=
  Real.pi * 0.5 * (normalized_track_error - 1) * (normalized_track_error - 1)

/-- NPFG::trackProximity (npfg.cpp line 214). -/
def trackProximity (look_ahead_ang : ℝ) : ℝ :=
  Real.sin look_ahead_ang * Real.sin look_ahead_ang

/-- NPFG::trackErrorBound (npfg.cpp line 220). -/
def trackErrorBound (ground_speed time_const : ℝ) : ℝ :=
  if ground_speed > 1 then ground_speed * time_const
  else 0.5 * time_const * (ground_speed * ground_speed + 1)

/-- NPFG::pGain (npfg.cpp line 232). -/
def pGain (period damping : ℝ) : ℝ := 4 * Real.pi * damping / period

/-- NPFG::timeConst (npfg.cpp line 237). -/
def timeConst (period damping : ℝ) : ℝ := period * damping

/-- NPFG::projectAirspOnBearing (npfg.cpp line 351). -/
def projectAirspOnBearing (airspeed wind_cross_bearing : ℝ) : ℝ :=
  Real.sqrt (max (airspeed * airspeed - wind_cross_bearing * wind_cross_bearing) 0)

/-- NPFG::bearingIsFeasible (npfg.cpp line 359); the int return of the source
is modelled as the proposition it encodes. -/
def bearingIsFeasible (wind_cross_bearing wind_dot_bearing airspeed wind_speed : ℝ) : Prop :=
  |wind_cross_bearing| < airspeed ∧ (wind_dot_bearing > 0 ∨ wind_speed < airspeed)

/-- NPFG::solveWindTriangle (npfg.cpp line 365). -/
def solveWindTriangle (wind_cross_bearing airsp_dot_bearing : ℝ) (bearing_vec : Vec2) : Vec2 :=
  ⟨airsp_dot_bearing * bearing_vec.x - wind_cross_bearing * bearing_vec.y,
   wind_cross_bearing * bearing_vec.x + airsp_dot_bearing * bearing_vec.y⟩

/-- NPFG::infeasibleAirVelRef (npfg.cpp line 373). -/
def infeasibleAirVelRef (wind_vel bearing_vec : Vec2) (wind_speed airspeed : ℝ) : Vec2 :=
  let air_vel_ref := Real.sqrt (max (wind_speed * wind_speed - airspeed * airspeed) 0) * bearing_vec - wind_vel
  airspeed * air_vel_ref.normalized

/-- NPFG::bearingVec (npfg.cpp line 247). -/
def bearingVec (unit_path_tangent : Vec2) (look_ahead_ang signed_track_error : ℝ) : Vec2 :=
  let cos_look_ahead_ang := Real.cos look_ahead_ang
  let sin_look_ahead_ang := Real.sin look_ahead_ang
  let unit_path_normal : Vec2 := ⟨-unit_path_tangent.y, unit_path_tangent.x⟩
  let unit_track_error := (-(if signed_track_error < 0 then (-1 : ℝ) else 1)) * unit_path_normal
  cos_look_ahead_ang * unit_track_error + sin_look_ahead_ang * unit_path_tangent

/-- Sine of the cross-wind angle as computed at the start of
NPFG::bearingFeasibility (npfg.cpp lines 386 to 393). -/
def sinCrossWindAngle (wind_cross_bearing wind_dot_bearing wind_speed : ℝ) : ℝ :=
  if wind_dot_bearing ≤ 0 then 1 else |wind_cross_bearing / wind_speed|

/-- Upper feasibility barrier on the wind ratio, as computed in
NPFG::bearingFeasibility (npfg.cpp lines 396 to 411). -/
def windRatioUB (sin_cross_wind_ang : ℝ) : ℝ :=
  if sin_cross_wind_ang < CROSS_WIND_ANG_CO then
    ONE_DIV_SIN_CROSS_WIND_ANG_CO + CO_SLOPE * (CROSS_WIND_ANG_CO - sin_cross_wind_ang)
  else 1 / sin_cross_wind_ang

/-- Lower feasibility barrier on the wind ratio, as computed in
NPFG::bearingFeasibility (npfg.cpp lines 396 to 411). -/
def windRatioLB (wind_ratio_buffer sin_cross_wind_ang : ℝ) : ℝ :=
  if sin_cross_wind_ang < CROSS_WIND_ANG_CO then
    (ONE_DIV_SIN_CROSS_WIND_ANG_CO - 2) * wind_ratio_buffer + 1 +
      wind_ratio_buffer * CO_SLOPE * (CROSS_WIND_ANG_CO - sin_cross_wind_ang)
  else (1 / sin_cross_wind_ang - 2) * wind_ratio_buffer + 1

/-- Final feasibility value of NPFG::bearingFeasibility as a function of the
barriers and the wind ratio (npfg.cpp lines 413 to 428); the squared cosine
models `feas = cosf(...); feas *= feas`. -/
def feasibilityTransition (wind_ratio_lb wind_ratio_ub wr : ℝ) : ℝ :=
  if wr > wind_ratio_ub then 0
  else if wr > wind_ratio_lb then
    Real.cos (Real.pi * 0.5 *
        constrain ((wr - wind_ratio_lb) / (wind_ratio_ub - wind_ratio_lb)) 0 1) *
      Real.cos (Real.pi * 0.5 *
        constrain ((wr - wind_ratio_lb) / (wind_ratio_ub - wind_ratio_lb)) 0 1)
  else 1

/-- NPFG::bearingFeasibility (npfg.cpp line 383). -/
def NPFG.bearingFeasibility (n : NPFG)
    (wind_cross_bearing wind_dot_bearing wind_speed wr : ℝ) : ℝ :=
  let s := sinCrossWindAngle wind_cross_bearing wind_dot_bearing wind_speed
  feasibilityTransition (windRatioLB n.wind_ratio_buffer_ s) (windRatioUB s) wr

/-- NPFG::periodUB (npfg.cpp line 183); the INFINITY return of the source, and
the non-finite quotient produced by a zero denominator, are modelled as
`none` (both fail the PX4_ISFINITE test of the caller). -/
def NPFG.periodUB (n : NPFG) (air_turn_rate wind_factor feas_on_track : ℝ) : Option ℝ :=
  if air_turn_rate * wind_factor > EPSILON then
    if air_turn_rate * wind_factor * feas_on_track = 0 then none
    else some (4 * Real.pi * n.damping_ / (air_turn_rate * wind_factor * feas_on_track))
  else none

/-- NPFG::periodLB (npfg.cpp line 194). -/
def NPFG.periodLB (n : NPFG) (air_turn_rate wind_factor feas_on_track : ℝ) : ℝ :=
  let period_lb := Real.pi * n.roll_time_const_ / n.damping_
  if air_turn_rate * wind_factor < EPSILON ∨ n.damping_ < 0.5 then period_lb
  else
    let period_windy_curved_damped := 4 * Real.pi * n.roll_time_const_ * n.damping_
    period_windy_curved_damped * feas_on_track + (1 - feas_on_track) * period_lb

/-- NPFG::adaptPeriod (npfg.cpp line 125); the `wind_vel` and
`unit_path_tangent` parameters of the source are unused by its body and are
kept for fidelity. -/
def NPFG.adaptPeriod (n : NPFG)
    (ground_speed airspeed wind_ratio track_error path_curvature : ℝ)
    (wind_vel unit_path_tangent : Vec2) (feas_on_track : ℝ) : ℝ :=
  let _ := wind_vel
  let _ := unit_path_tangent
  let air_turn_rate := |path_curvature * airspeed|
  let wind_factor := windFactor wind_ratio
  if n.en_period_lb_ = true then
    let period_lb := n.periodLB air_turn_rate wind_factor feas_on_track
    let period := max (period_lb * PERIOD_SAFETY_FACTOR) n.period_
    match n.periodUB air_turn_rate wind_factor feas_on_track with
    | none => period
    | some period_ub =>
      if n.en_period_ub_ = true ∧ period > period_ub then
        let period_adapted := max (period_lb * PERIOD_SAFETY_FACTOR) period_ub
        let time_const := timeConst period n.damping_
        let track_error_bound := trackErrorBound ground_speed time_const
        let normalized_track_error := normalizedTrackError track_error track_error_bound
        let look_ahead_ang := lookAheadAngle normalized_track_error
        let track_proximity := trackProximity look_ahead_ang
        if n.ramp_in_adapted_period_ = true then
          period_adapted * track_proximity + (1 - track_proximity) * period
        else period_adapted
      else period
  else n.period_

/-- NPFG::minGroundSpeed (npfg.cpp line 259); the source assigns the member
`min_gsp_track_keeping_` and returns the demand, modelled here as the pair
(new `min_gsp_track_keeping_`, returned minimum ground speed). -/
def NPFG.minGroundSpeed (n : NPFG) (normalized_track_error feas : ℝ) : ℝ × ℝ :=
  let min_gsp_track_keeping :=
    if n.en_track_keeping_ = true ∧ n.en_wind_excess_regulation_ = true then
      (1 - feas) * n.min_gsp_track_keeping_max_ *
        constrain (normalized_track_error * n.inv_nte_fraction_) 0 1
    else 0
  let min_gsp_cmd :=
    if n.en_min_ground_speed_ = true ∧ n.en_wind_excess_regulation_ = true then
      n.min_gsp_cmd_
    else 0
  (min_gsp_track_keeping, max min_gsp_track_keeping min_gsp_cmd)

/-- NPFG::refAirVelocity (npfg.cpp line 281). -/
def NPFG.refAirVelocity (n : NPFG) (wind_vel bearing_vec : Vec2)
    (wind_cross_bearing wind_dot_bearing wind_speed min_ground_speed : ℝ) : Vec2 :=
  if min_ground_speed > wind_dot_bearing ∧
      (n.en_min_ground_speed_ = true ∨ n.en_track_keeping_ = true) ∧
      n.en_wind_excess_regulation_ = true then
    let airspeed_min := Real.sqrt
      ((min_ground_speed - wind_dot_bearing) * (min_ground_speed - wind_dot_bearing) +
        wind_cross_bearing * wind_cross_bearing)
    if airspeed_min > n.airspeed_max_ then
      if bearingIsFeasible wind_cross_bearing wind_dot_bearing n.airspeed_max_ wind_speed then
        solveWindTriangle wind_cross_bearing
          (projectAirspOnBearing n.airspeed_max_ wind_cross_bearing) bearing_vec
      else
        infeasibleAirVelRef wind_vel bearing_vec wind_speed n.airspeed_max_
    else if airspeed_min > n.airspeed_nom_ then
      solveWindTriangle wind_cross_bearing
        (projectAirspOnBearing airspeed_min wind_cross_bearing) bearing_vec
    else
      solveWindTriangle wind_cross_bearing
        (projectAirspOnBearing n.airspeed_nom_ wind_cross_bearing) bearing_vec
  else
    if bearingIsFeasible wind_cross_bearing wind_dot_bearing n.airspeed_nom_ wind_speed then
      solveWindTriangle wind_cross_bearing
        (projectAirspOnBearing n.airspeed_nom_ wind_cross_bearing) bearing_vec
    else if bearingIsFeasible wind_cross_bearing wind_dot_bearing n.airspeed_max_ wind_speed ∧
        n.en_wind_excess_regulation_ = true then
      if wind_dot_bearing ≤ 0 then wind_vel
      else solveWindTriangle wind_cross_bearing 0 bearing_vec
    else
      infeasibleAirVelRef wind_vel bearing_vec wind_speed
        (if n.en_wind_excess_regulation_ = true then n.airspeed_max_ else n.airspeed_nom_)

/-- NPFG::lateralAccelFF (npfg.cpp line 431); the `wind_speed` and
`wind_ratio` parameters of the source are unused by its body and are kept for
fidelity. -/
def lateralAccelFF (unit_path_tangent ground_vel : Vec2)
    (wind_dot_upt wind_cross_upt airspeed wind_speed wind_ratio
      signed_track_error path_curvature track_proximity feas : ℝ) : ℝ :=
  let _ := wind_speed
  let _ := wind_ratio
  let path_frame_curvature := path_curvature /
    max (1 - path_curvature * signed_track_error) (path_curvature * MIN_RADIUS)
  let tangent_ground_speed := max (ground_vel.dot unit_path_tangent) 0
  let path_frame_rate := path_frame_curvature * tangent_ground_speed
  let speed_ratio :=
    1 + wind_dot_upt / max (projectAirspOnBearing airspeed wind_cross_upt) EPSILON
  airspeed * track_proximity * feas * speed_ratio * path_frame_rate

/-- NPFG::lateralAccel (npfg.cpp line 463); the member reads `p_gain_` and
`airspeed_ref_` of the source are passed explicitly (evaluate assigns both
before this call). -/
def lateralAccel (p_gain airspeed_ref : ℝ) (air_vel air_vel_ref : Vec2) (airspeed : ℝ) : ℝ :=
  let dot_air_vel_err := air_vel.dot air_vel_ref
  let cross_air_vel_err := cross2D air_vel air_vel_ref
  if dot_air_vel_err < 0 then
    p_gain * (if cross_air_vel_err < 0 then -airspeed * airspeed else airspeed * airspeed)
  else
    p_gain * cross_air_vel_err * airspeed / airspeed_ref

/-- NPFG::evaluate (npfg.cpp line 50): the per-tick core, returning the updated
controller state.  The degenerate-airspeed guard of the source short-circuits
before any other member is assigned. -/
def NPFG.evaluate (n : NPFG) (ground_vel wind_vel unit_path_tangent : Vec2)
    (signed_track_error path_curvature : ℝ) : NPFG :=
  if (ground_vel - wind_vel).norm < MIN_AIRSPEED then
    { n with airspeed_ref_ := n.airspeed_nom_, lateral_accel_ := 0, feas_ := 0 }
  else
    let ground_speed := ground_vel.norm
    let air_vel := ground_vel - wind_vel
    let airspeed := air_vel.norm
    let wind_speed := wind_vel.norm
    let wind_ratio := wind_speed / airspeed
    let track_error := |signed_track_error|
    let wind_cross_upt := cross2D wind_vel unit_path_tangent
    let wind_dot_upt := wind_vel.dot unit_path_tangent
    let feas_on_track := n.bearingFeasibility wind_cross_upt wind_dot_upt wind_speed wind_ratio
    let adapted_period := n.adaptPeriod ground_speed airspeed wind_ratio track_error
      path_curvature wind_vel unit_path_tangent feas_on_track
    let p_gain := pGain adapted_period n.damping_
    let time_const := timeConst adapted_period n.damping_
    let track_error_bound := trackErrorBound ground_speed time_const
    let normalized_track_error := normalizedTrackError track_error track_error_bound
    let look_ahead_ang := lookAheadAngle normalized_track_error
    let bearing_vec := bearingVec unit_path_tangent look_ahead_ang signed_track_error
    let wind_cross_bearing := cross2D wind_vel bearing_vec
    let wind_dot_bearing := wind_vel.dot bearing_vec
    let feas := n.bearingFeasibility wind_cross_bearing wind_dot_bearing wind_speed wind_ratio
    let feas_combined := feas * feas_on_track
    let mg := n.minGroundSpeed normalized_track_error feas_combined
    let air_vel_ref := n.refAirVelocity wind_vel bearing_vec wind_cross_bearing
      wind_dot_bearing wind_speed mg.2
    let airspeed_ref := air_vel_ref.norm
    let track_proximity := trackProximity look_ahead_ang
    let lateral_accel_ff := lateralAccelFF unit_path_tangent ground_vel wind_dot_upt
      wind_cross_upt airspeed wind_speed wind_ratio signed_track_error path_curvature
      track_proximity feas_combined
    let lateral_accel := lateralAccel p_gain airspeed_ref air_vel air_vel_ref airspeed +
      lateral_accel_ff
    { n with
      feas_on_track_ := feas_on_track,
      adapted_period_ := adapted_period,
      p_gain_ := p_gain,
      time_const_ := time_const,
      track_error_bound_ := track_error_bound,
      bearing_vec_ := bearing_vec,
      feas_ := feas,
      min_gsp_track_keeping_ := mg.1,
      min_ground_speed_ref_ := mg.2,
      air_vel_ref_ := air_vel_ref,
      airspeed_ref_ := airspeed_ref,
      track_proximity_ := track_proximity,
      lateral_accel_ff_ := lateral_accel_ff,
      lateral_accel_ := lateral_accel }

/-- NPFG::updateRollSetpoint (npfg.cpp line 618).  The lateral acceleration
input is taken as `Option ℝ`: `none` models a NaN float, for which `atanf`
returns NaN, `math::constrain` propagates it (both comparisons are false), and
`PX4_ISFINITE` fails so the previous setpoint is retained; `some x` models a
finite value (the state field `lateral_accel_` is modelled as a real, so the
navigation entry points pass `some`). -/
def NPFG.updateRollSetpoint (n : NPFG) (lateral_accel : Option ℝ) : NPFG :=
  let roll_new := lateral_accel.map fun a =>
    constrain (Real.arctan (a * 1 / CONSTANTS_ONE_G)) (-n.roll_lim_rad_) n.roll_lim_rad_
  let roll_new := if n.dt_ > 0 ∧ n.roll_slew_rate_ > 0 then
      roll_new.map fun r =>
        constrain r (n.roll_setpoint_ - n.roll_slew_rate_ * n.dt_)
          (n.roll_setpoint_ + n.roll_slew_rate_ * n.dt_)
    else roll_new
  match roll_new with
  | some r => { n with roll_setpoint_ := r }
  | none => n

/-- NPFG::getLocalPlanarVector (npfg.cpp line 605); geodetic points are
modelled as real pairs (degrees latitude, longitude). -/
def getLocalPlanarVector (origin target : Vec2) : Vec2 :=
  let x_angle := radians (target.x - origin.x)
  let y_angle := radians (target.y - origin.y)
  let x_origin_cos := Real.cos (radians origin.x)
  ⟨x_angle * CONSTANTS_RADIUS_OF_EARTH, y_angle * x_origin_cos * CONSTANTS_RADIUS_OF_EARTH⟩

/-- Closest-point direction selection of NPFG::navigateLoiter
(npfg.cpp lines 525 to 542). -/
def loiterClosestPointDir (ground_vel vector_center_to_vehicle : Vec2) : Vec2 :=
  if vector_center_to_vehicle.norm < 0.1 then
    if ground_vel.norm < 0.1 then ⟨1, 0⟩ else ground_vel.normalized
  else vector_center_to_vehicle.normalized

/-- NPFG::navigateLoiter (npfg.cpp line 513). -/
def NPFG.navigateLoiter (n : NPFG) (loiter_center vehicle_pos : Vec2) (radius : ℝ)
    (loiter_direction : ℤ) (ground_vel wind_vel : Vec2) : NPFG :=
  let radius := max radius MIN_RADIUS
  let vector_center_to_vehicle := getLocalPlanarVector loiter_center vehicle_pos
  let dist_to_center := vector_center_to_vehicle.norm
  let unit_vec_center_to_closest_pt := loiterClosestPointDir ground_vel vector_center_to_vehicle
  let upt := (loiter_direction : ℝ) *
    (⟨-unit_vec_center_to_closest_pt.y, unit_vec_center_to_closest_pt.x⟩ : Vec2)
  let ste := -(loiter_direction : ℝ) * (dist_to_center - radius)
  let path_curvature := (loiter_direction : ℝ) / radius
  let n1 := { n with
    path_type_loiter_ := true
    unit_path_tangent_ := upt
    signed_track_error_ := ste }
  let n2 := n1.evaluate ground_vel wind_vel upt ste path_curvature
  n2.updateRollSetpoint (some n2.lateral_accel_)

/-! ### Helper lemmas about the clamping primitive -/

theorem constrain_mem (val lo hi : ℝ) (h : lo ≤ hi) :
    lo ≤ constrain val lo hi ∧ constrain val lo hi ≤ hi := by
  unfold constrain
  split_ifs with h1 h2 <;> constructor <;> linarith

theorem constrain_mono (x y lo hi : ℝ) (hxy : x ≤ y) (h : lo ≤ hi) :
    constrain x lo hi ≤ constrain y lo hi := by
  unfold constrain
  split_ifs <;> linarith

theorem abs_constrain_sub_center (x p d : ℝ) (hd : 0 ≤ d) :
    |constrain x (p - d) (p + d) - p| ≤ d := by
  unfold constrain
  split_ifs <;> rw [abs_le] <;> constructor <;> linarith

theorem constrain_range_preserved (x p d L : ℝ) (hx1 : -L ≤ x) (hx2 : x ≤ L)
    (hp : |p| ≤ L) (hd : 0 ≤ d) :
    -L ≤ constrain x (p - d) (p + d) ∧ constrain x (p - d) (p + d) ≤ L := by
  rw [abs_le] at hp
  unfold constrain
  split_ifs <;> constructor <;> linarith

/-! ### C9: wind factor -/

/-- C9: windFactor(0) = 0, windFactor(1) = 2, windFactor is monotonically
non-decreasing on [0,1], and saturates at 2 for every wind ratio above 1. -/
theorem windFactor_properties (wr1 wr2 wr3 : ℝ) (h1 : 0 ≤ wr1) (h2 : wr1 ≤ wr2)
    (h3 : wr2 ≤ 1) (h4 : 1 < wr3) :
    windFactor 0 = 0 ∧ windFactor 1 = 2 ∧
    windFactor wr1 ≤ windFactor wr2 ∧ windFactor wr3 = 2 := by
  refine ⟨?_, ?_, ?_, ?_⟩
  · norm_num [windFactor, Real.sqrt_one]
  · norm_num [windFactor, Real.sqrt_zero]
  · unfold windFactor
    have hm : min 1 wr1 ≤ min 1 wr2 := min_le_min le_rfl h2
    have hs := Real.sqrt_le_sqrt (show 1 - min 1 wr2 ≤ 1 - min 1 wr1 by linarith)
    linarith
  · unfold windFactor
    rw [min_eq_left h4.le]
    norm_num [Real.sqrt_zero]

theorem windFactor_properties_witness :
    (0 : ℝ) ≤ 0 ∧ (0 : ℝ) ≤ 1 ∧ (1 : ℝ) ≤ 1 ∧ (1 : ℝ) < 2 ∧
    (windFactor 0 = 0 ∧ windFactor 1 = 2 ∧ windFactor 0 ≤ windFactor 1 ∧ windFactor 2 = 2) :=
  ⟨le_rfl, by norm_num, le_rfl, by norm_num,
    windFactor_properties 0 1 2 le_rfl (by norm_num) le_rfl (by norm_num)⟩

/-! ### C3: normalized track error and look-ahead angle -/

/-- C3 counterexample: the look-ahead angle at zero track error is not 0 (it
is pi/2), and at track error equal to the bound it is not pi/2 (it is 0) -
the spec sentence swaps the two endpoint values. -/
theorem lookAheadAngle_endpoint_counterexample :
    lookAheadAngle (normalizedTrackError 0 1) ≠ 0 ∧
    lookAheadAngle (normalizedTrackError 1 1) ≠ Real.pi / 2 := by
  have hpi := Real.pi_pos
  constructor
  · have h : normalizedTrackError 0 1 = 0 := by norm_num [normalizedTrackError, constrain]
    rw [h]
    unfold lookAheadAngle
    intro hc
    nlinarith
  · have h : normalizedTrackError 1 1 = 1 := by norm_num [normalizedTrackError, constrain]
    rw [h]
    unfold lookAheadAngle
    intro hc
    nlinarith

/-- C3 amended: for non-negative track error and positive bound the
normalized track error lies in [0,1]; the look-ahead angle is pi/2 at zero
track error, 0 at track error equal to the bound, and always lies in
[0, pi/2]. -/
theorem lookAheadAngle_endpoints_amended (track_error track_error_bound : ℝ)
    (h1 : 0 ≤ track_error) (h2 : 0 < track_error_bound) :
    0 ≤ normalizedTrackError track_error track_error_bound ∧
    normalizedTrackError track_error track_error_bound ≤ 1 ∧
    (track_error = 0 →
      lookAheadAngle (normalizedTrackError track_error track_error_bound) = Real.pi / 2) ∧
    (track_error = track_error_bound →
      lookAheadAngle (normalizedTrackError track_error track_error_bound) = 0) ∧
    0 ≤ lookAheadAngle (normalizedTrackError track_error track_error_bound) ∧
    lookAheadAngle (normalizedTrackError track_error track_error_bound) ≤ Real.pi / 2 := by
  obtain ⟨hl, hr⟩ : 0 ≤ normalizedTrackError track_error track_error_bound ∧
      normalizedTrackError track_error track_error_bound ≤ 1 := by
    unfold normalizedTrackError
    exact constrain_mem _ 0 1 (by norm_num)
  have hpi := Real.pi_pos
  refine ⟨hl, hr, ?_, ?_, ?_, ?_⟩
  · intro h0
    have h : normalizedTrackError track_error track_error_bound = 0 := by
      rw [h0]
      norm_num [normalizedTrackError, constrain]
    rw [h]
    unfold lookAheadAngle
    ring
  · intro hb
    have h : normalizedTrackError track_error track_error_bound = 1 := by
      rw [hb]
      rw [normalizedTrackError, div_self (ne_of_gt h2)]
      norm_num [constrain]
    rw [h]
    unfold lookAheadAngle
    ring
  · unfold lookAheadAngle
    nlinarith [sq_nonneg (normalizedTrackError track_error track_error_bound - 1)]
  · unfold lookAheadAngle
    nlinarith [mul_nonneg hl
      (show (0:ℝ) ≤ 2 - normalizedTrackError track_error track_error_bound by linarith)]

theorem lookAheadAngle_endpoints_amended_witness :
    (0 : ℝ) ≤ 0 ∧ (0 : ℝ) < 1 ∧
    (0 ≤ normalizedTrackError 0 1 ∧ normalizedTrackError 0 1 ≤ 1 ∧
      ((0 : ℝ) = 0 → lookAheadAngle (normalizedTrackError 0 1) = Real.pi / 2) ∧
      ((0 : ℝ) = 1 → lookAheadAngle (normalizedTrackError 0 1) = 0) ∧
      0 ≤ lookAheadAngle (normalizedTrackError 0 1) ∧
      lookAheadAngle (normalizedTrackError 0 1) ≤ Real.pi / 2) :=
  ⟨le_rfl, by norm_num, lookAheadAngle_endpoints_amended 0 1 le_rfl (by norm_num)⟩

/-! ### C7: wind triangle solver identities -/

/-- C7 counterexample: for the unit bearing vector (1,0) and cross component
1, the cross product of the solver output with the bearing vector is -1, not
1 - the identity holds only with the arguments of the cross product swapped
(or with a minus sign). -/
theorem solveWindTriangle_cross_sign_counterexample :
    Vec2.norm ⟨1, 0⟩ = 1 ∧ cross2D (solveWindTriangle 1 0 ⟨1, 0⟩) ⟨1, 0⟩ ≠ 1 := by
  constructor
  · show Real.sqrt (1 * 1 + 0 * 0) = 1
    norm_num [Real.sqrt_one]
  · norm_num [cross2D, solveWindTriangle]

/-- C7 amended: for a unit bearing vector b, the solver output v satisfies
v . b = a, and the 2D cross product of b with v (equivalently, minus the
cross product of v with b) reproduces the cross component c. -/
theorem solveWindTriangle_identities_amended (c a : ℝ) (b : Vec2) (hb : b.norm = 1) :
    (solveWindTriangle c a b).dot b = a ∧ cross2D b (solveWindTriangle c a b) = c := by
  have hsq : b.x * b.x + b.y * b.y = 1 := by
    have h2 : Real.sqrt (b.x * b.x + b.y * b.y) = 1 := hb
    exact Real.sqrt_eq_one.mp h2
  unfold solveWindTriangle Vec2.dot cross2D
  constructor
  · linear_combination a * hsq
  · linear_combination c * hsq

theorem solveWindTriangle_identities_amended_witness :
    Vec2.norm ⟨1, 0⟩ = 1 ∧
    ((solveWindTriangle 1 2 ⟨1, 0⟩).dot ⟨1, 0⟩ = 2 ∧
      cross2D ⟨1, 0⟩ (solveWindTriangle 1 2 ⟨1, 0⟩) = 1) :=
  ⟨by show Real.sqrt (1 * 1 + 0 * 0) = 1; norm_num [Real.sqrt_one],
    solveWindTriangle_identities_amended 1 2 ⟨1, 0⟩
      (by show Real.sqrt (1 * 1 + 0 * 0) = 1; norm_num [Real.sqrt_one])⟩

/-- Concrete controller instance used by the witnesses. -/
def npfgA : NPFG where
  period_ := 10
  damping_ := 0.7
  roll_time_const_ := 0.5
  airspeed_nom_ := 1
  airspeed_max_ := 3
  wind_ratio_buffer_ := 0.1
  min_gsp_cmd_ := 0
  min_gsp_track_keeping_max_ := 5
  inv_nte_fraction_ := 2
  roll_lim_rad_ := 1
  roll_slew_rate_ := 1
  dt_ := 0
  en_period_lb_ := true
  en_period_ub_ := false
  ramp_in_adapted_period_ := false
  en_track_keeping_ := false
  en_min_ground_speed_ := false
  en_wind_excess_regulation_ := true
  adapted_period_ := 10
  p_gain_ := 1
  time_const_ := 7
  track_error_bound_ := 70
  feas_ := 1
  feas_on_track_ := 1
  min_gsp_track_keeping_ := 0
  min_ground_speed_ref_ := 0
  airspeed_ref_ := 1
  track_proximity_ := 0
  lateral_accel_ff_ := 0
  lateral_accel_ := 0
  roll_setpoint_ := 0
  signed_track_error_ := 0
  bearing_vec_ := ⟨1, 0⟩
  air_vel_ref_ := ⟨1, 0⟩
  unit_path_tangent_ := ⟨1, 0⟩
  path_type_loiter_ := false

/-! ### C4: bearing feasibility -/

theorem feasibilityTransition_nonneg (l u wr : ℝ) : 0 ≤ feasibilityTransition l u wr := by
  unfold feasibilityTransition
  split_ifs with h1 h2
  · norm_num
  · exact mul_self_nonneg _
  · norm_num

theorem feasibilityTransition_le_one (l u wr : ℝ) : feasibilityTransition l u wr ≤ 1 := by
  unfold feasibilityTransition
  split_ifs with h1 h2
  · norm_num
  · set θ := Real.pi * 0.5 * constrain ((wr - l) / (u - l)) 0 1 with hθ
    nlinarith [Real.neg_one_le_cos θ, Real.cos_le_one θ]
  · norm_num

theorem feasibilityTransition_antitone (l u wr1 wr2 : ℝ) (h : wr1 ≤ wr2) :
    feasibilityTransition l u wr2 ≤ feasibilityTransition l u wr1 := by
  have hpi := Real.pi_pos
  by_cases h2u : wr2 > u
  · have h2 : feasibilityTransition l u wr2 = 0 := by
      unfold feasibilityTransition
      rw [if_pos h2u]
    rw [h2]
    exact feasibilityTransition_nonneg l u wr1
  · have h1u : ¬wr1 > u := by
      rw [not_lt] at h2u ⊢
      linarith
    by_cases h2l : wr2 > l
    · by_cases h1l : wr1 > l
      · -- both in the cosine transition band, with l < wr1 ≤ wr2 ≤ u
        unfold feasibilityTransition
        rw [if_neg h2u, if_pos h2l, if_neg h1u, if_pos h1l]
        have hlu : l < u := lt_of_lt_of_le h1l (not_lt.mp h1u)
        have hden : 0 < u - l := by linarith
        obtain ⟨hc1l, hc1r⟩ := constrain_mem ((wr1 - l) / (u - l)) 0 1 (by norm_num)
        obtain ⟨hc2l, hc2r⟩ := constrain_mem ((wr2 - l) / (u - l)) 0 1 (by norm_num)
        have hc12 : constrain ((wr1 - l) / (u - l)) 0 1 ≤
            constrain ((wr2 - l) / (u - l)) 0 1 := by
          apply constrain_mono _ _ 0 1 _ (by norm_num)
          exact div_le_div_of_nonneg_right (by linarith) hden.le
        set c1 := constrain ((wr1 - l) / (u - l)) 0 1 with hc1
        set c2 := constrain ((wr2 - l) / (u - l)) 0 1 with hc2
        have hth12 : Real.pi * 0.5 * c1 ≤ Real.pi * 0.5 * c2 := by nlinarith
        have hth1n : 0 ≤ Real.pi * 0.5 * c1 := by nlinarith
        have hth2pi : Real.pi * 0.5 * c2 ≤ Real.pi := by nlinarith
        have hcos := Real.cos_le_cos_of_nonneg_of_le_pi hth1n hth2pi hth12
        have hcos2n : 0 ≤ Real.cos (Real.pi * 0.5 * c2) := by
          apply Real.cos_nonneg_of_mem_Icc
          constructor
          · nlinarith
          · nlinarith
        nlinarith
      · -- wr1 at or below the lower barrier: full feasibility 1 on the right
        have h1 : feasibilityTransition l u wr1 = 1 := by
          unfold feasibilityTransition
          rw [if_neg h1u, if_neg h1l]
        rw [h1]
        exact feasibilityTransition_le_one l u wr2
    · -- wr2 at or below the lower barrier: both sides equal 1
      have h1l : ¬wr1 > l := by
        rw [not_lt] at h2l ⊢
        linarith
      unfold feasibilityTransition
      rw [if_neg h2u, if_neg h2l, if_neg h1u, if_neg h1l]

theorem feasibilityTransition_at_zero (l u : ℝ) (hl : 0 ≤ l) (hu : 0 < u) :
    feasibilityTransition l u 0 = 1 := by
  unfold feasibilityTransition
  rw [if_neg (not_lt.mpr hu.le), if_neg (not_lt.mpr hl)]

theorem sinCrossWindAngle_nonneg (wc wd ws : ℝ) : 0 ≤ sinCrossWindAngle wc wd ws := by
  unfold sinCrossWindAngle
  split_ifs
  · norm_num
  · exact abs_nonneg _

theorem windRatioUB_pos (s : ℝ) (hs : 0 ≤ s) : 0 < windRatioUB s := by
  unfold windRatioUB CROSS_WIND_ANG_CO ONE_DIV_SIN_CROSS_WIND_ANG_CO CO_SLOPE
  split_ifs with h
  · nlinarith
  · have h1 : 0 < s := by norm_num at h; linarith
    positivity

theorem windRatioLB_nonneg (buf s : ℝ) (hs : 0 ≤ s) (hb0 : 0 ≤ buf) (hb2 : buf ≤ 1 / 2) :
    0 ≤ windRatioLB buf s := by
  unfold windRatioLB CROSS_WIND_ANG_CO ONE_DIV_SIN_CROSS_WIND_ANG_CO CO_SLOPE
  split_ifs with h
  · norm_num at h
    nlinarith
  · norm_num at h
    have h1 : 0 < s := by linarith
    have h2 : 0 ≤ 1 / s := by positivity
    nlinarith [mul_nonneg h2 hb0]

/-- C4: for fixed wind cross and dot components and fixed wind speed (hence a
fixed sine of the cross-wind angle), bearingFeasibility is monotonically
non-increasing in the wind ratio; it equals 1 at wind ratio 0 (given a sane
wind-ratio buffer configuration) and 0 for every wind ratio strictly above
the computed upper barrier. -/
theorem bearingFeasibility_antitone_in_wind_ratio (n : NPFG) (wc wd ws wr1 wr2 wr3 : ℝ)
    (hb0 : 0 ≤ n.wind_ratio_buffer_) (hb2 : n.wind_ratio_buffer_ ≤ 1 / 2)
    (h12 : wr1 ≤ wr2) (h3 : windRatioUB (sinCrossWindAngle wc wd ws) < wr3) :
    n.bearingFeasibility wc wd ws wr2 ≤ n.bearingFeasibility wc wd ws wr1 ∧
    n.bearingFeasibility wc wd ws 0 = 1 ∧
    n.bearingFeasibility wc wd ws wr3 = 0 := by
  unfold NPFG.bearingFeasibility
  refine ⟨feasibilityTransition_antitone _ _ _ _ h12, ?_, ?_⟩
  · exact feasibilityTransition_at_zero _ _
      (windRatioLB_nonneg _ _ (sinCrossWindAngle_nonneg wc wd ws) hb0 hb2)
      (windRatioUB_pos _ (sinCrossWindAngle_nonneg wc wd ws))
  · unfold feasibilityTransition
    rw [if_pos h3]

theorem bearingFeasibility_antitone_in_wind_ratio_witness :
    0 ≤ npfgA.wind_ratio_buffer_ ∧ npfgA.wind_ratio_buffer_ ≤ 1 / 2 ∧
    (0 : ℝ) ≤ 1 ∧ windRatioUB (sinCrossWindAngle 0 (-1) 1) < 2 ∧
    (npfgA.bearingFeasibility 0 (-1) 1 1 ≤ npfgA.bearingFeasibility 0 (-1) 1 0 ∧
      npfgA.bearingFeasibility 0 (-1) 1 0 = 1 ∧
      npfgA.bearingFeasibility 0 (-1) 1 2 = 0) :=
  ⟨by norm_num [npfgA], by norm_num [npfgA], by norm_num,
    by norm_num [windRatioUB, sinCrossWindAngle, CROSS_WIND_ANG_CO],
    bearingFeasibility_antitone_in_wind_ratio npfgA 0 (-1) 1 0 1 2
      (by norm_num [npfgA]) (by norm_num [npfgA]) (by norm_num)
      (by norm_num [windRatioUB, sinCrossWindAngle, CROSS_WIND_ANG_CO])⟩

/-! ### C6: adapted period lower bound -/

theorem trackProximity_mem (look_ahead_ang : ℝ) :
    0 ≤ trackProximity look_ahead_ang ∧ trackProximity look_ahead_ang ≤ 1 := by
  unfold trackProximity
  refine ⟨mul_self_nonneg _, ?_⟩
  nlinarith [Real.neg_one_le_sin look_ahead_ang, Real.sin_le_one look_ahead_ang]

/-- C6: with period lower-bounding enabled, the adapted period returned by
adaptPeriod is at least periodLB of the current flight condition multiplied
by the fixed safety factor, in every branch (including the upper-bounding
branch and the ramped blend). -/
theorem adaptPeriod_lower_bounded (n : NPFG)
    (ground_speed airspeed wind_ratio track_error path_curvature : ℝ)
    (wind_vel unit_path_tangent : Vec2) (feas_on_track : ℝ)
    (h : n.en_period_lb_ = true) :
    n.periodLB (|path_curvature * airspeed|) (windFactor wind_ratio) feas_on_track *
        PERIOD_SAFETY_FACTOR ≤
      n.adaptPeriod ground_speed airspeed wind_ratio track_error path_curvature
        wind_vel unit_path_tangent feas_on_track := by
  simp only [NPFG.adaptPeriod]
  rw [if_pos h]
  set L := n.periodLB (|path_curvature * airspeed|) (windFactor wind_ratio) feas_on_track *
    PERIOD_SAFETY_FACTOR with hL
  cases hub : n.periodUB (|path_curvature * airspeed|) (windFactor wind_ratio) feas_on_track with
  | none => exact le_max_left _ _
  | some period_ub =>
    dsimp only
    split_ifs with hcond hramp
    · obtain ⟨htp0, htp1⟩ := trackProximity_mem (lookAheadAngle (normalizedTrackError
        track_error (trackErrorBound ground_speed (timeConst (max L n.period_) n.damping_))))
      have h1 : L ≤ max L period_ub := le_max_left _ _
      have h2 : L ≤ max L n.period_ := le_max_left _ _
      nlinarith
    · exact le_max_left _ _
    · exact le_max_left _ _

theorem adaptPeriod_lower_bounded_witness :
    npfgA.en_period_lb_ = true ∧
    npfgA.periodLB (|(0 : ℝ) * 1|) (windFactor 0) 1 * PERIOD_SAFETY_FACTOR ≤
      npfgA.adaptPeriod 1 1 0 0 0 ⟨0, 0⟩ ⟨1, 0⟩ 1 :=
  ⟨rfl, adaptPeriod_lower_bounded npfgA 1 1 0 0 0 ⟨0, 0⟩ ⟨1, 0⟩ 1 rfl⟩

/-! ### C5: terminal zero-ground-speed condition of refAirVelocity -/

/-- C5: when no minimum-ground-speed demand overrides, the bearing is not
feasible at nominal airspeed but feasible at maximum airspeed, wind-excess
regulation is enabled, and the wind opposes the bearing, the reference air
velocity equals the wind velocity vector exactly. -/
theorem refAirVelocity_terminal_wind (n : NPFG) (wind_vel bearing_vec : Vec2)
    (wind_cross_bearing wind_dot_bearing wind_speed min_ground_speed : ℝ)
    (h1 : ¬(min_ground_speed > wind_dot_bearing ∧
      (n.en_min_ground_speed_ = true ∨ n.en_track_keeping_ = true) ∧
      n.en_wind_excess_regulation_ = true))
    (h2 : ¬bearingIsFeasible wind_cross_bearing wind_dot_bearing n.airspeed_nom_ wind_speed)
    (h3 : bearingIsFeasible wind_cross_bearing wind_dot_bearing n.airspeed_max_ wind_speed)
    (h4 : n.en_wind_excess_regulation_ = true)
    (h5 : wind_dot_bearing ≤ 0) :
    n.refAirVelocity wind_vel bearing_vec wind_cross_bearing wind_dot_bearing
      wind_speed min_ground_speed = wind_vel := by
  unfold NPFG.refAirVelocity
  rw [if_neg h1, if_neg h2, if_pos ⟨h3, h4⟩, if_pos h5]

theorem refAirVelocity_terminal_wind_witness :
    ¬((0 : ℝ) > -2 ∧
        (npfgA.en_min_ground_speed_ = true ∨ npfgA.en_track_keeping_ = true) ∧
        npfgA.en_wind_excess_regulation_ = true) ∧
    ¬bearingIsFeasible 0 (-2) npfgA.airspeed_nom_ 2 ∧
    bearingIsFeasible 0 (-2) npfgA.airspeed_max_ 2 ∧
    npfgA.en_wind_excess_regulation_ = true ∧
    (-2 : ℝ) ≤ 0 ∧
    npfgA.refAirVelocity ⟨-2, 0⟩ ⟨1, 0⟩ 0 (-2) 2 0 = ⟨-2, 0⟩ :=
  ⟨by norm_num [npfgA], by norm_num [bearingIsFeasible, npfgA],
    by norm_num [bearingIsFeasible, npfgA], rfl, by norm_num,
    refAirVelocity_terminal_wind npfgA ⟨-2, 0⟩ ⟨1, 0⟩ 0 (-2) 2 0
      (by norm_num [npfgA]) (by norm_num [bearingIsFeasible, npfgA])
      (by norm_num [bearingIsFeasible, npfgA]) rfl (by norm_num)⟩

/-! ### C2 and C10: degenerate airspeed short-circuit of evaluate -/

theorem Vec2.sub_def (a b : Vec2) : a - b = ⟨a.x - b.x, a.y - b.y⟩ := rfl

/-- C2: when the derived airspeed is below the fixed minimum threshold,
evaluate sets lateral_accel_ to 0, feas_ to 0 and airspeed_ref_ to the
nominal airspeed, taking the early return. -/
theorem evaluate_degenerate_airspeed (n : NPFG) (ground_vel wind_vel unit_path_tangent : Vec2)
    (signed_track_error path_curvature : ℝ)
    (h : (ground_vel - wind_vel).norm < MIN_AIRSPEED) :
    (n.evaluate ground_vel wind_vel unit_path_tangent signed_track_error
        path_curvature).lateral_accel_ = 0 ∧
    (n.evaluate ground_vel wind_vel unit_path_tangent signed_track_error
        path_curvature).feas_ = 0 ∧
    (n.evaluate ground_vel wind_vel unit_path_tangent signed_track_error
        path_curvature).airspeed_ref_ = n.airspeed_nom_ := by
  unfold NPFG.evaluate
  rw [if_pos h]
  exact ⟨rfl, rfl, rfl⟩

theorem evaluate_degenerate_airspeed_witness :
    ((⟨0, 0⟩ : Vec2) - ⟨0, 0⟩).norm < MIN_AIRSPEED ∧
    ((npfgA.evaluate ⟨0, 0⟩ ⟨0, 0⟩ ⟨1, 0⟩ 0 0).lateral_accel_ = 0 ∧
      (npfgA.evaluate ⟨0, 0⟩ ⟨0, 0⟩ ⟨1, 0⟩ 0 0).feas_ = 0 ∧
      (npfgA.evaluate ⟨0, 0⟩ ⟨0, 0⟩ ⟨1, 0⟩ 0 0).airspeed_ref_ = npfgA.airspeed_nom_) :=
  ⟨by norm_num [Vec2.sub_def, Vec2.norm, MIN_AIRSPEED, Real.sqrt_zero],
    evaluate_degenerate_airspeed npfgA ⟨0, 0⟩ ⟨0, 0⟩ ⟨1, 0⟩ 0 0
      (by norm_num [Vec2.sub_def, Vec2.norm, MIN_AIRSPEED, Real.sqrt_zero])⟩

/-- C10: on the degenerate-airspeed early return, every controller state
field other than airspeed_ref_, lateral_accel_ and feas_ keeps its previous
value. -/
theorem evaluate_degenerate_airspeed_frame (n : NPFG)
    (ground_vel wind_vel unit_path_tangent : Vec2)
    (signed_track_error path_curvature : ℝ)
    (h : (ground_vel - wind_vel).norm < MIN_AIRSPEED) :
    (n.evaluate ground_vel wind_vel unit_path_tangent signed_track_error
        path_curvature).adapted_period_ = n.adapted_period_ ∧
    (n.evaluate ground_vel wind_vel unit_path_tangent signed_track_error
        path_curvature).p_gain_ = n.p_gain_ ∧
    (n.evaluate ground_vel wind_vel unit_path_tangent signed_track_error
        path_curvature).time_const_ = n.time_const_ ∧
    (n.evaluate ground_vel wind_vel unit_path_tangent signed_track_error
        path_curvature).track_error_bound_ = n.track_error_bound_ ∧
    (n.evaluate ground_vel wind_vel unit_path_tangent signed_track_error
        path_curvature).bearing_vec_ = n.bearing_vec_ ∧
    (n.evaluate ground_vel wind_vel unit_path_tangent signed_track_error
        path_curvature).feas_on_track_ = n.feas_on_track_ ∧
    (n.evaluate ground_vel wind_vel unit_path_tangent signed_track_error
        path_curvature).min_ground_speed_ref_ = n.min_ground_speed_ref_ ∧
    (n.evaluate ground_vel wind_vel unit_path_tangent signed_track_error
        path_curvature).air_vel_ref_ = n.air_vel_ref_ ∧
    (n.evaluate ground_vel wind_vel unit_path_tangent signed_track_error
        path_curvature).track_proximity_ = n.track_proximity_ ∧
    (n.evaluate ground_vel wind_vel unit_path_tangent signed_track_error
        path_curvature).lateral_accel_ff_ = n.lateral_accel_ff_ := by
  unfold NPFG.evaluate
  rw [if_pos h]
  exact ⟨rfl, rfl, rfl, rfl, rfl, rfl, rfl, rfl, rfl, rfl⟩

theorem evaluate_degenerate_airspeed_frame_witness :
    ((⟨3, 4⟩ : Vec2) - ⟨3, 4⟩).norm < MIN_AIRSPEED ∧
    (npfgA.evaluate ⟨3, 4⟩ ⟨3, 4⟩ ⟨1, 0⟩ 7 1).adapted_period_ = npfgA.adapted_period_ :=
  ⟨by norm_num [Vec2.sub_def, Vec2.norm, MIN_AIRSPEED, Real.sqrt_zero],
    (evaluate_degenerate_airspeed_frame npfgA ⟨3, 4⟩ ⟨3, 4⟩ ⟨1, 0⟩ 7 1
      (by norm_num [Vec2.sub_def, Vec2.norm, MIN_AIRSPEED, Real.sqrt_zero])).1⟩

/-! ### C8: loiter radius clamping, track error and curvature -/

theorem evaluate_signed_track_error (n : NPFG) (ground_vel wind_vel unit_path_tangent : Vec2)
    (signed_track_error path_curvature : ℝ) :
    (n.evaluate ground_vel wind_vel unit_path_tangent signed_track_error
      path_curvature).signed_track_error_ = n.signed_track_error_ := by
  unfold NPFG.evaluate
  split_ifs <;> rfl

theorem updateRollSetpoint_signed_track_error (n : NPFG) (lateral_accel : Option ℝ) :
    (n.updateRollSetpoint lateral_accel).signed_track_error_ = n.signed_track_error_ := by
  unfold NPFG.updateRollSetpoint
  cases lateral_accel <;> split_ifs <;> rfl

/-- C8: for a vehicle at planar distance at least 0.1 from the loiter center,
navigateLoiter clamps the radius to at least MIN_RADIUS, stores the signed
track error -direction * (distance - clamped radius), and passes the
curvature direction / clamped radius to evaluate. -/
theorem navigateLoiter_radius_clamp (n : NPFG) (loiter_center vehicle_pos : Vec2)
    (radius : ℝ) (loiter_direction : ℤ) (ground_vel wind_vel : Vec2)
    (hdir : loiter_direction = 1 ∨ loiter_direction = -1)
    (hd : 0.1 ≤ (getLocalPlanarVector loiter_center vehicle_pos).norm) :
    (n.navigateLoiter loiter_center vehicle_pos radius loiter_direction ground_vel
        wind_vel).signed_track_error_ =
      -(loiter_direction : ℝ) *
        ((getLocalPlanarVector loiter_center vehicle_pos).norm - max radius MIN_RADIUS) ∧
    n.navigateLoiter loiter_center vehicle_pos radius loiter_direction ground_vel wind_vel =
      (let upt := (loiter_direction : ℝ) *
        (⟨-(getLocalPlanarVector loiter_center vehicle_pos).normalized.y,
          (getLocalPlanarVector loiter_center vehicle_pos).normalized.x⟩ : Vec2)
       let ste := -(loiter_direction : ℝ) *
        ((getLocalPlanarVector loiter_center vehicle_pos).norm - max radius MIN_RADIUS)
       let n2 := NPFG.evaluate { n with
          path_type_loiter_ := true
          unit_path_tangent_ := upt
          signed_track_error_ := ste } ground_vel wind_vel upt ste
        ((loiter_direction : ℝ) / max radius MIN_RADIUS)
       n2.updateRollSetpoint (some n2.lateral_accel_)) := by
  have hmain : n.navigateLoiter loiter_center vehicle_pos radius loiter_direction ground_vel
      wind_vel =
      (let upt := (loiter_direction : ℝ) *
        (⟨-(getLocalPlanarVector loiter_center vehicle_pos).normalized.y,
          (getLocalPlanarVector loiter_center vehicle_pos).normalized.x⟩ : Vec2)
       let ste := -(loiter_direction : ℝ) *
        ((getLocalPlanarVector loiter_center vehicle_pos).norm - max radius MIN_RADIUS)
       let n2 := NPFG.evaluate { n with
          path_type_loiter_ := true
          unit_path_tangent_ := upt
          signed_track_error_ := ste } ground_vel wind_vel upt ste
        ((loiter_direction : ℝ) / max radius MIN_RADIUS)
       n2.updateRollSetpoint (some n2.lateral_accel_)) := by
    simp only [NPFG.navigateLoiter, loiterClosestPointDir]
    rw [if_neg (not_lt.mpr hd)]
  refine ⟨?_, hmain⟩
  rw [hmain]
  dsimp only
  rw [updateRollSetpoint_signed_track_error, evaluate_signed_track_error]

theorem navigateLoiter_radius_clamp_witness :
    ((1 : ℤ) = 1 ∨ (1 : ℤ) = -1) ∧
    0.1 ≤ (getLocalPlanarVector ⟨0, 0⟩ ⟨1, 0⟩).norm ∧
    (npfgA.navigateLoiter ⟨0, 0⟩ ⟨1, 0⟩ 100 1 ⟨20, 0⟩ ⟨0, 0⟩).signed_track_error_ =
      -((1 : ℤ) : ℝ) * ((getLocalPlanarVector ⟨0, 0⟩ ⟨1, 0⟩).norm - max 100 MIN_RADIUS) := by
  have hd : (0.1 : ℝ) ≤ (getLocalPlanarVector ⟨0, 0⟩ ⟨1, 0⟩).norm := by
    have hpi := Real.pi_gt_three
    unfold getLocalPlanarVector radians CONSTANTS_RADIUS_OF_EARTH Vec2.norm
    norm_num
    rw [Real.sqrt_mul_self (by positivity)]
    nlinarith
  exact ⟨Or.inl rfl, hd,
    (navigateLoiter_radius_clamp npfgA ⟨0, 0⟩ ⟨1, 0⟩ 100 1 ⟨20, 0⟩ ⟨0, 0⟩
      (Or.inl rfl) hd).1⟩

/-! ### C1: roll setpoint bounding, slew limiting and NaN rejection -/

/-- C1: updateRollSetpoint keeps the stored roll setpoint within
[-roll_lim_rad_, roll_lim_rad_] (as an invariant preserved from the previous
tick's in-range setpoint); whenever dt_ and roll_slew_rate_ are positive, the
setpoint moves by at most roll_slew_rate_ * dt_; and a non-finite candidate
(a NaN lateral acceleration, modelled as `none`) leaves the previous setpoint
unchanged. -/
theorem updateRollSetpoint_invariant (n : NPFG) (lateral_accel : Option ℝ)
    (hL : 0 ≤ n.roll_lim_rad_) (hprev : |n.roll_setpoint_| ≤ n.roll_lim_rad_) :
    |(n.updateRollSetpoint lateral_accel).roll_setpoint_| ≤ n.roll_lim_rad_ ∧
    (0 < n.dt_ → 0 < n.roll_slew_rate_ →
      |(n.updateRollSetpoint lateral_accel).roll_setpoint_ - n.roll_setpoint_| ≤
        n.roll_slew_rate_ * n.dt_) ∧
    (lateral_accel = none →
      (n.updateRollSetpoint lateral_accel).roll_setpoint_ = n.roll_setpoint_) := by
  cases lateral_accel with
  | none =>
    have hres : (n.updateRollSetpoint none).roll_setpoint_ = n.roll_setpoint_ := by
      unfold NPFG.updateRollSetpoint
      split_ifs <;> rfl
    rw [hres]
    refine ⟨hprev, ?_, fun _ => rfl⟩
    intro hdt hslew
    rw [sub_self, abs_zero]
    positivity
  | some a =>
    have hLL : -n.roll_lim_rad_ ≤ n.roll_lim_rad_ := by linarith
    obtain ⟨hx1, hx2⟩ := constrain_mem (Real.arctan (a * 1 / CONSTANTS_ONE_G))
      (-n.roll_lim_rad_) n.roll_lim_rad_ hLL
    by_cases hc : n.dt_ > 0 ∧ n.roll_slew_rate_ > 0
    · have hd : 0 ≤ n.roll_slew_rate_ * n.dt_ := mul_nonneg hc.2.le hc.1.le
      have hres : (n.updateRollSetpoint (some a)).roll_setpoint_ =
          constrain (constrain (Real.arctan (a * 1 / CONSTANTS_ONE_G))
              (-n.roll_lim_rad_) n.roll_lim_rad_)
            (n.roll_setpoint_ - n.roll_slew_rate_ * n.dt_)
            (n.roll_setpoint_ + n.roll_slew_rate_ * n.dt_) := by
        unfold NPFG.updateRollSetpoint
        simp only [Option.map_some']
        rw [if_pos hc]
      rw [hres]
      obtain ⟨hr1, hr2⟩ := constrain_range_preserved
        (constrain (Real.arctan (a * 1 / CONSTANTS_ONE_G)) (-n.roll_lim_rad_) n.roll_lim_rad_)
        n.roll_setpoint_ (n.roll_slew_rate_ * n.dt_) n.roll_lim_rad_ hx1 hx2 hprev hd
      refine ⟨abs_le.mpr ⟨hr1, hr2⟩, ?_, ?_⟩
      · intro _ _
        exact abs_constrain_sub_center _ n.roll_setpoint_ _ hd
      · intro hnone
        simp at hnone
    · have hres : (n.updateRollSetpoint (some a)).roll_setpoint_ =
          constrain (Real.arctan (a * 1 / CONSTANTS_ONE_G))
            (-n.roll_lim_rad_) n.roll_lim_rad_ := by
        unfold NPFG.updateRollSetpoint
        simp only [Option.map_some']
        rw [if_neg hc]
      rw [hres]
      refine ⟨abs_le.mpr ⟨hx1, hx2⟩, ?_, ?_⟩
      · intro hdt hslew
        exact absurd ⟨hdt, hslew⟩ hc
      · intro hnone
        simp at hnone

theorem updateRollSetpoint_invariant_witness :
    0 ≤ npfgA.roll_lim_rad_ ∧ |npfgA.roll_setpoint_| ≤ npfgA.roll_lim_rad_ ∧
    |(npfgA.updateRollSetpoint (some 0)).roll_setpoint_| ≤ npfgA.roll_lim_rad_ :=
  ⟨by norm_num [npfgA], by norm_num [npfgA],
    (updateRollSetpoint_invariant npfgA (some 0) (by norm_num [npfgA])
      (by norm_num [npfgA])).1⟩

end

end NPFGVerification
